import Mathlib

/-! Verification of the scenario-projection core of the residual-emissions
dashboard (residual_emissions_app.py): the emissions decomposition series,
the sigmoid residual trajectory, and the derived-metric utilities, embedded
over exact arithmetic (rationals for the decomposition and the percentage
utilities, reals for the sigmoid curve). -/

namespace ResidualApp

/-- One record of the emissions decomposition series, one per horizon year
(the dictionary appended to the data list inside create_emissions_decomposition). -/
structure DecompPoint where
  year : ℤ
  unabated_growth : ℚ
  genuine_decarb : ℚ
  dynamic_residual : ℚ
  carbon_removals : ℚ
  growth_limits : ℚ
deriving DecidableEq

/-- The fixed horizon of create_emissions_decomposition. -/
def years : List ℤ := [2030, 2035, 2040, 2045, 2050]

/-- company_baseline = 1000 MtCO2e. -/
def company_baseline : ℚ := 1000

/-- growth_rate = 0.04 (4 percent annual growth). -/
def growth_rate : ℚ := 4 / 100

/-- decarbonization_efficiency = 0.5. -/
def decarbonization_efficiency : ℚ := 1 / 2

/-- The growth factor produced by the source loop: cumulative_growth starts at
1.0; at step i the source sets year_growth to
cumulative_growth * (1 + growth_rate) ^ (5 * i) when i is positive and to 1.0
at i = 0, and then writes year_growth back into cumulative_growth, so the
factor at step i + 1 is the factor at step i times (1 + growth_rate) ^ (5 * (i + 1)). -/
def yearGrowth : ℕ → ℚ
  | 0 => 1
  | n + 1 => yearGrowth n * (1 + growth_rate) ^ (5 * (n + 1))

/-- The body of the loop in create_emissions_decomposition at index i and the
corresponding horizon year. -/
def decompPoint (i : ℕ) (year : ℤ) : DecompPoint :=
  let year_growth := yearGrowth i
  let unabated_growth :=
    company_baseline * (year_growth - 1) * (1 - decarbonization_efficiency)
  let genuine_decarb :=
    -company_baseline * (year_growth - 1) * decarbonization_efficiency
  let base_residual := company_baseline * (11 / 100)
  let dynamic_multiplier := 1 + (6 / 10) * ((i : ℚ) / 4)
  let dynamic_residual := base_residual * dynamic_multiplier
  let carbon_removals := dynamic_residual
  let growth_limits :=
    if 2 < i then -company_baseline * (15 / 100) * ((i : ℚ) / 2) else 0
  { year := year
    unabated_growth := unabated_growth
    genuine_decarb := genuine_decarb
    dynamic_residual := dynamic_residual
    carbon_removals := carbon_removals
    growth_limits := growth_limits }

/-- The full decomposition series returned by create_emissions_decomposition. -/
def create_emissions_decomposition : List DecompPoint :=
  years.enum.map fun p => decompPoint p.1 p.2

/-- conservative_residual = 100 - conservative_reduction (the same formula is
applied to the ambitious, breakthrough and static levels). -/
def conservative_residual (conservative_reduction : ℚ) : ℚ :=
  100 - conservative_reduction

/-- conservative_removals = company_emissions * (conservative_residual / 100). -/
def conservative_removals (company_emissions residual : ℚ) : ℚ :=
  company_emissions * (residual / 100)

/-- conservative_cost = conservative_removals * removal_cost. -/
def conservative_cost (removals cost_per_ton : ℚ) : ℚ :=
  removals * cost_per_ton

/-- static_residual = 11. -/
def static_residual : ℚ := 11

/-- current_gap = abs(conservative_residual - static_residual). -/
def current_gap (residual : ℚ) : ℚ :=
  |residual - static_residual|

/-- Modelled from the spec: the source's industry records carry no
biological_floor field, so the industry floor the spec describes is taken from
its worked Food, Beverage and Tobacco scenario, which fixes the floor at 25
percent of baseline (the conservative residual driven by biological constraints). -/
def biological_floor_food : ℚ := 25

/-- The industry floor of the spec, baseline * biological_floor / 100, at the
spec-modelled Food floor. -/
def industry_floor_food : ℚ := company_baseline * biological_floor_food / 100

/-- Modelled from the spec: the control layer hands the engine only values
inside the declared slider bounds; the ambitious slider declares lower bound
conservative_reduction and upper bound 98, so its value is the requested one
clamped into that range. -/
def ambitious_slider (conservative_reduction v : ℚ) : ℚ :=
  max conservative_reduction (min 98 v)

/-- The sigmoid curve of the timeline section: t counts years from 2025,
base_residual = 100 - max_reduction, the raw value decays exponentially toward
base_residual, and the returned value is max(base_residual, min(25, raw)).
The local inflection_t is computed by the source but never used. -/
noncomputable def sigmoid_residual
    (year max_reduction inflection_year steepness : ℝ) : ℝ :=
  let t := year - 2025
  let inflection_t := inflection_year - 2025
  let base_residual := 100 - max_reduction
  let current_residual :=
    base_residual + (25 - base_residual) * Real.exp (-steepness * (t - 5))
  max base_residual (min 25 current_residual)

/-- Unfolding equation for sigmoid_residual. -/
theorem sigmoid_residual_eq (year max_reduction inflection_year steepness : ℝ) :
    sigmoid_residual year max_reduction inflection_year steepness =
      max (100 - max_reduction)
        (min 25 ((100 - max_reduction) +
          (25 - (100 - max_reduction)) *
            Real.exp (-steepness * ((year - 2025) - 5)))) := rfl

/-- The decomposition series written out point by point. -/
theorem create_emissions_decomposition_eq :
    create_emissions_decomposition =
      [decompPoint 0 2030, decompPoint 1 2035, decompPoint 2 2040,
        decompPoint 3 2045, decompPoint 4 2050] := rfl

/-- The first point belongs to the decomposition series. -/
theorem decompPoint_zero_mem :
    decompPoint 0 2030 ∈ create_emissions_decomposition := by
  rw [create_emissions_decomposition_eq]
  exact List.mem_cons_self _ _

/-- C1: evaluation at the failing step. At horizon step 2 the running
accumulator of the source yields the growth factor (1 + growth_rate) ^ 15,
which differs from the fixed-baseline factor (1 + growth_rate) ^ (5 * 2) that
the claim, and the source's own four-percent-annual-growth comment, require. -/
theorem C1_growth_factor_running_accumulator :
    yearGrowth 2 = (1 + growth_rate) ^ 15 ∧
    yearGrowth 2 ≠ (1 + growth_rate) ^ (5 * 2) := by
  have h2 : yearGrowth 2 =
      1 * (1 + growth_rate) ^ (5 * 1) * (1 + growth_rate) ^ (5 * 2) := rfl
  constructor
  · rw [h2, one_mul, ← pow_add]
  · rw [h2, one_mul, ← pow_add]
    norm_num [growth_rate]

/-- C2: counterexample. The first point of the series has dynamic residual 110,
which lies strictly below the industry floor of 250 (25 percent of the 1000
baseline), so the residual is neither equal to the max of the floor and the
ramp nor bounded below by the floor: no floor clamp is applied in the code. -/
theorem C2_counterexample_no_floor_clamp :
    (decompPoint 0 2030).dynamic_residual = 110 ∧
    decompPoint 0 2030 ∈ create_emissions_decomposition ∧
    industry_floor_food = 250 ∧
    ¬ industry_floor_food ≤ (decompPoint 0 2030).dynamic_residual := by
  have h1 : (decompPoint 0 2030).dynamic_residual = 110 := by
    norm_num [decompPoint, company_baseline]
  refine ⟨h1, decompPoint_zero_mem, ?_, ?_⟩
  · norm_num [industry_floor_food, company_baseline, biological_floor_food]
  · rw [h1]
    norm_num [industry_floor_food, company_baseline, biological_floor_food]

/-- C2 amended: the dynamic residual at 0-based step i of the produced series
equals baseline * 0.11 * (1 + 0.6 * (i / 4)) — a linear ramp of the static
11 percent baseline from multiplier 1.0 at i = 0 to 1.6 at the last step —
with no industry-floor clamp applied to it. -/
theorem C2_amended_linear_ramp :
    create_emissions_decomposition.map DecompPoint.dynamic_residual =
      (List.range 5).map fun i =>
        company_baseline * (11 / 100) * (1 + (6 / 10) * ((i : ℚ) / 4)) := rfl

/-- C3: every point of the produced series has carbon_removals equal to
dynamic_residual (removals are sized to exactly offset residuals). -/
theorem C3_removals_equal_residuals :
    ∀ p ∈ create_emissions_decomposition,
      p.carbon_removals = p.dynamic_residual := by
  intro p hp
  rw [create_emissions_decomposition_eq] at hp
  fin_cases hp <;> rfl

/-- C3 witness at the first point of the series. -/
theorem C3_removals_equal_residuals_witness :
    decompPoint 0 2030 ∈ create_emissions_decomposition ∧
    (decompPoint 0 2030).carbon_removals = (decompPoint 0 2030).dynamic_residual :=
  ⟨decompPoint_zero_mem,
    C3_removals_equal_residuals (decompPoint 0 2030) decompPoint_zero_mem⟩

/-- C4: counterexample. With max_reduction 70 the base residual is 30, and the
returned value is at least the base residual, hence strictly above 25: the
result of sigmoid_residual is not confined to values at most 25. -/
theorem C4_counterexample_above_25 :
    25 < sigmoid_residual 2025 70 2035 (3 / 10) := by
  rw [sigmoid_residual_eq]
  exact lt_of_lt_of_le (by norm_num) (le_max_left _ _)

/-- C4 amended: sigmoid_residual equals
max(base_residual, min(25, base_residual + (25 - base_residual) *
exp(-steepness * (t - 5)))) with t = year - 2025 and
base_residual = 100 - max_reduction; whenever max_reduction is at least 75
(so base_residual is at most 25) this is the clamp into the interval
from base_residual to 25: never below the asymptotic floor, never above 25. -/
theorem C4_clamped_form :
    (∀ year max_reduction : ℝ,
      sigmoid_residual year max_reduction 2035 (3 / 10) =
        max (100 - max_reduction)
          (min 25 ((100 - max_reduction) +
            (25 - (100 - max_reduction)) *
              Real.exp (-(3 / 10) * ((year - 2025) - 5))))) ∧
    (∀ year max_reduction : ℝ, 75 ≤ max_reduction →
      100 - max_reduction ≤ sigmoid_residual year max_reduction 2035 (3 / 10) ∧
      sigmoid_residual year max_reduction 2035 (3 / 10) ≤ 25) := by
  constructor
  · intro year max_reduction
    exact sigmoid_residual_eq year max_reduction 2035 (3 / 10)
  · intro year max_reduction hm
    rw [sigmoid_residual_eq]
    exact ⟨le_max_left _ _, max_le (by linarith) (min_le_left _ _)⟩

/-- C4 witness at year 2030 and max_reduction 80. -/
theorem C4_clamped_form_witness :
    (75 : ℝ) ≤ 80 ∧
    (100 - 80 ≤ sigmoid_residual 2030 80 2035 (3 / 10) ∧
      sigmoid_residual 2030 80 2035 (3 / 10) ≤ 25) :=
  ⟨by norm_num, C4_clamped_form.2 2030 80 (by norm_num)⟩

/-- C5: with the default inflection year and steepness, sigmoid_residual is
non-increasing in the year, and it is bounded below by 100 - max_reduction at
every year. -/
theorem C5_monotone_and_floor :
    (∀ max_reduction year1 year2 : ℝ, year1 ≤ year2 →
      sigmoid_residual year2 max_reduction 2035 (3 / 10) ≤
        sigmoid_residual year1 max_reduction 2035 (3 / 10)) ∧
    (∀ max_reduction year : ℝ,
      100 - max_reduction ≤ sigmoid_residual year max_reduction 2035 (3 / 10)) := by
  constructor
  · intro m year1 year2 h
    rw [sigmoid_residual_eq, sigmoid_residual_eq]
    rcases le_or_lt (100 - m) 25 with hb | hb
    · apply max_le_max le_rfl
      apply min_le_min le_rfl
      apply add_le_add_left
      apply mul_le_mul_of_nonneg_left _ (by linarith)
      exact Real.exp_le_exp.mpr (by linarith)
    · have h1 : min 25 ((100 - m) +
          (25 - (100 - m)) * Real.exp (-(3 / 10) * ((year1 - 2025) - 5))) ≤
          100 - m := le_trans (min_le_left _ _) hb.le
      have h2 : min 25 ((100 - m) +
          (25 - (100 - m)) * Real.exp (-(3 / 10) * ((year2 - 2025) - 5))) ≤
          100 - m := le_trans (min_le_left _ _) hb.le
      rw [max_eq_left h1, max_eq_left h2]
  · intro m year
    rw [sigmoid_residual_eq]
    exact le_max_left _ _

/-- C5 witness: years 2030 and 2040 with max_reduction 85. -/
theorem C5_monotone_and_floor_witness :
    ((2030 : ℝ) ≤ 2040 ∧
      sigmoid_residual 2040 85 2035 (3 / 10) ≤
        sigmoid_residual 2030 85 2035 (3 / 10)) ∧
    100 - 85 ≤ sigmoid_residual 2030 85 2035 (3 / 10) :=
  ⟨⟨by norm_num, C5_monotone_and_floor.1 85 2030 2040 (by norm_num)⟩,
    C5_monotone_and_floor.2 85 2030⟩

/-- C6: counterexample. At a maximum reduction of 92 the residual is 8, the
claim demands the signed gap 8 - 11 = -3, but the code returns the absolute
value 3. -/
theorem C6_counterexample_signed :
    current_gap (conservative_residual 92) ≠
      conservative_residual 92 - static_residual := by
  have h : conservative_residual 92 - static_residual = -3 := by
    norm_num [conservative_residual, static_residual]
  show |conservative_residual 92 - static_residual| ≠
    conservative_residual 92 - static_residual
  rw [h, abs_neg, abs_of_nonneg (by norm_num : (0 : ℚ) ≤ 3)]
  norm_num

/-- C6 amended: the gap is the absolute difference
abs(scenario_residual - 11), not the signed difference; when the reduction m
is at most 89 (residual at least 11) it coincides with the signed value
(100 - m) - 11, and in particular m = 75 gives gap 14. -/
theorem C6_amended_absolute_gap :
    (∀ residual : ℚ, current_gap residual = |residual - static_residual|) ∧
    (∀ m : ℚ, m ≤ 89 →
      current_gap (conservative_residual m) = (100 - m) - static_residual) ∧
    current_gap (conservative_residual 75) = 14 := by
  refine ⟨fun residual => rfl, fun m hm => ?_, ?_⟩
  · show |100 - m - static_residual| = (100 - m) - static_residual
    simp only [static_residual]
    exact abs_of_nonneg (by linarith)
  · have h : conservative_residual 75 - static_residual = 14 := by
      norm_num [conservative_residual, static_residual]
    show |conservative_residual 75 - static_residual| = 14
    rw [h]
    exact abs_of_nonneg (by norm_num)

/-- C6 witness at m = 75. -/
theorem C6_amended_absolute_gap_witness :
    (75 : ℚ) ≤ 89 ∧
    current_gap (conservative_residual 75) = (100 - 75) - static_residual :=
  ⟨by norm_num, C6_amended_absolute_gap.2.1 75 (by norm_num)⟩

/-- C7: the worked scenario of the derived-metric utilities: a 75 percent
reduction leaves a 25 percent residual, a 100000-ton baseline at that residual
needs 25000 tons of removals, and 25000 tons at 400 per ton cost 10000000. -/
theorem C7_worked_example :
    conservative_residual 75 = 25 ∧
    conservative_removals 100000 25 = 25000 ∧
    conservative_cost 25000 400 = 10000000 := by
  refine ⟨?_, ?_, ?_⟩ <;>
    norm_num [conservative_residual, conservative_removals, conservative_cost]

/-- C8: counterexample. Even under an out-of-order pair of reduction levels
(ambitious 70 strictly below conservative 80) the engine, which takes no
reduction-level parameters at all, still produces the full five-point series:
nothing is raised and the output is not empty. -/
theorem C8_counterexample_no_exception :
    (70 : ℚ) < 80 ∧
    create_emissions_decomposition.length = 5 ∧
    create_emissions_decomposition ≠ [] := by
  refine ⟨by norm_num, rfl, ?_⟩
  rw [create_emissions_decomposition_eq]
  exact List.cons_ne_nil _ _

/-- C8 amended: the engine performs no reduction-level validation and defines
no InvalidParameterError: create_emissions_decomposition takes no reduction
parameters and unconditionally produces one point per horizon year; the
ambitious-below-conservative state is instead prevented at the control layer,
whose ambitious slider is bounded below by the current conservative value. -/
theorem C8_amended_ui_bounds_no_validation :
    (∀ conservative_reduction v : ℚ,
      conservative_reduction ≤ ambitious_slider conservative_reduction v) ∧
    create_emissions_decomposition.length = 5 ∧
    create_emissions_decomposition.map DecompPoint.year = years :=
  ⟨fun _ _ => le_max_left _ _, rfl, rfl⟩

/-- C9: the first point of the decomposition (index 0, year 2030) has zero
unabated growth and zero genuine decarbonization, because the growth factor at
step 0 is exactly 1. -/
theorem C9_first_point_zero_growth :
    create_emissions_decomposition.head? = some (decompPoint 0 2030) ∧
    (decompPoint 0 2030).year = 2030 ∧
    (decompPoint 0 2030).unabated_growth = 0 ∧
    (decompPoint 0 2030).genuine_decarb = 0 ∧
    yearGrowth 0 = 1 := by
  refine ⟨rfl, rfl, ?_, ?_, rfl⟩ <;>
    norm_num [decompPoint, company_baseline, yearGrowth,
      decarbonization_efficiency]

/-- C10: the value of sigmoid_residual does not depend on the inflection_year
argument: the source computes inflection_t from it and then never uses it. -/
theorem C10_inflection_year_unused
    (year max_reduction steepness iy1 iy2 : ℝ) :
    sigmoid_residual year max_reduction iy1 steepness =
      sigmoid_residual year max_reduction iy2 steepness := rfl

end ResidualApp
